import Mathlib

/-!
Shallow embedding of `gps.py` from the gps4photos repository.

The program correlates a CSV table of GPS samples with photo files:
inject mode writes the nearest-in-time GPS sample into a photo's EXIF,
harvest mode collects EXIF GPS data from photos into the CSV table.

Modelling conventions:
* Python floats are modelled by `ℚ` (the program only compares, subtracts
  and takes absolute values of timestamps, and compares coordinates with 0;
  no rounding behaviour is relied upon by any claim).
* Python's `float("inf")` initial minimum is modelled by `⊤ : WithTop ℚ`,
  and the empty tuple `()` returned for "no row" by `none`.
* The external collaborators (exiftool read/write, reverse geocoder) are
  opaque capabilities: they enter the embedding as parameters giving the
  result of each call (`Except String _`, `.error` = the call raised).
* EXIF string values use `""` for an absent tag, matching
  `meta.get(..., "")`; Python truthiness of such a value is `≠ ""`,
  truthiness of a float timestamp is `≠ 0`.
-/

/-- One GPS sample: the 4-tuple `(timestamp, latitude, longitude, altitude)`
as built by `load_gps_csv` (line 33: `(float(row[0]), row[1], row[2], row[3])`)
and by `read_photo_gps` (line 68: `(timestamp, lat, lon, alt)`).
The timestamp is numeric, the other three fields are kept as raw strings. -/
structure GpsRow where
  ts : ℚ
  lat : String
  lon : String
  alt : String
deriving DecidableEq

/-- The tag dictionary passed to `et.set_tags` (lines 126-132). -/
structure TagSet where
  lat : String
  lon : String
  alt : String
  latRef : String
  lonRef : String
deriving DecidableEq

/-- Value of a single decimal digit character. -/
def digVal (c : Char) : Option Nat :=
  if c.isDigit then some (c.toNat - 48) else none

/-- Value of a digit string, `none` if any character is not a digit.
An empty list yields `some 0`; callers guard against emptiness. -/
def decDigits? (l : List Char) : Option Nat :=
  l.foldl (fun acc c => do
    let a ← acc
    let d ← digVal c
    pure (a * 10 + d)) (some 0)

/-- Sign prefix of a decimal literal: the sign factor and the remaining
characters. -/
def stripSign (cs : List Char) : ℚ × List Char :=
  match cs with
  | c :: t => if c = '-' then (-1, t) else if c = '+' then (1, t) else (1, cs)
  | [] => (1, [])

/-- Split a character list at the first decimal point: integer-part
characters, and the characters after the point when one is present. -/
def splitDot : List Char → List Char × Option (List Char)
  | [] => ([], none)
  | c :: t =>
      if c = '.' then ([], some t)
      else
        let r := splitDot t
        (c :: r.1, r.2)

/-- Python's `float(s)` restricted to plain decimal literals: an optional
sign followed by digits with at most one decimal point and at least one
digit overall. `none` models `float` raising `ValueError`. (Exponent
notation, surrounding whitespace, `inf`/`nan` and underscore separators are
outside the data handled by these claims; a second decimal point makes the
fractional part fail the digit check, hence `none`, as in Python.) -/
def pyFloat (s : String) : Option ℚ :=
  let sc := stripSign s.toList
  let parts := splitDot sc.2
  match parts.2 with
  | none =>
      if parts.1.isEmpty then none
      else (decDigits? parts.1).map (fun n => sc.1 * (n : ℚ))
  | some fp =>
      if parts.1.isEmpty && fp.isEmpty then none
      else do
        let n ← decDigits? parts.1
        let f ← decDigits? fp
        pure (sc.1 * ((n : ℚ) + (f : ℚ) / (10 : ℚ) ^ fp.length))

/-- Loop body of `get_closest_gps_row` (lines 80-84): update the running
`(min_diff, closest_gps_row)` pair when the current row is strictly closer. -/
def closestStep (timestamp : ℚ) (acc : WithTop ℚ × Option GpsRow) (gps_row : GpsRow) :
    WithTop ℚ × Option GpsRow :=
  if ((|timestamp - gps_row.ts| : ℚ) : WithTop ℚ) < acc.1
  then (((|timestamp - gps_row.ts| : ℚ) : WithTop ℚ), some gps_row)
  else acc

/-- Embeds `get_closest_gps_row` (lines 76-86): linear scan of the table
tracking the minimum absolute time difference, starting from
`min_diff = float("inf")`, `closest_gps_row = ()`. The table is passed as
the iteration sequence of the Python set; the function only reads it. -/
def get_closest_gps_row (timestamp : ℚ) (table : List GpsRow) :
    WithTop ℚ × Option GpsRow :=
  table.foldl (closestStep timestamp) (⊤, none)

/-- Outcome classification for one `write_photo_gps` call.  The three
`skipped` cases are the early `return`s at lines 102, 107 and 117 of the
source; `raised` records an uncaught Python exception escaping the call;
`done` is the successful path reaching line 136. -/
inductive WriteOutcome where
  | skippedNoExif
  | skippedHasGps
  | skippedNoRow
  | rejectedTooFar
  | raised (e : String)
  | done
deriving DecidableEq

/-- Observable effects of one `write_photo_gps` call: its outcome, whether
`gps_to_address` (the reverse-geocoding collaborator, line 111) was
invoked, and the `et.set_tags` call when one was made (tag dictionary and
exiftool parameter list, lines 124-134). -/
structure WriteResult where
  outcome : WriteOutcome
  addressCalled : Bool
  tagsCall : Option (TagSet × List String)
deriving DecidableEq

/-- Parameter list passed to exiftool at line 133:
`["-P", "-overwrite_original" if OVERWRITE else ""]`. -/
def exiftoolParams (ov : Bool) : List String :=
  ["-P", if ov then "-overwrite_original" else ""]

/-- Embeds `write_photo_gps` (lines 97-136).  The external collaborators
are passed as the results their calls would produce: `exif` is the value
returned by `read_photo_gps` (`none` models the empty tuple returned when
the EXIF read failed; that failure is caught inside `read_photo_gps`),
`addr` is the result of the `gps_to_address` call (`.error` models the
call raising), and `setTags` gives the result of the `et.set_tags` call
for the tags and parameters it receives.  `ov` is the module-level
`OVERWRITE` global read at line 133.  Notes kept from the source: the
truthiness test at line 101 is `exif_row` non-empty, and `exif_row[1]`,
`exif_row[2]` non-empty strings; `datetime.fromtimestamp` at line 110 and
the `click.secho` diagnostics are effect-free for these claims; the
hemisphere references at lines 130-131 apply Python `float` to the raw
CSV strings, which can itself raise `ValueError`. -/
def write_photo_gps (exif : Option GpsRow) (table : List GpsRow)
    (addr : Except String String)
    (setTags : TagSet → List String → Except String Unit)
    (ov : Bool) : WriteResult :=
  match exif with
  | none => ⟨.skippedNoExif, false, none⟩
  | some e =>
    if e.lat ≠ "" ∧ e.lon ≠ "" then ⟨.skippedHasGps, false, none⟩
    else
      match (get_closest_gps_row e.ts table).2 with
      | none => ⟨.skippedNoRow, false, none⟩
      | some row =>
        match addr with
        | .error er => ⟨.raised er, true, none⟩
        | .ok _ =>
          if (3600 : ℚ) < (get_closest_gps_row e.ts table).1 then
            ⟨.rejectedTooFar, true, none⟩
          else
            match pyFloat row.lat, pyFloat row.lon with
            | some la, some lo =>
                match setTags ⟨row.lat, row.lon, row.alt,
                    if 0 < la then "N" else "S",
                    if 0 < lo then "E" else "W"⟩ (exiftoolParams ov) with
                | .error er =>
                    ⟨.raised er, true,
                     some (⟨row.lat, row.lon, row.alt,
                            if 0 < la then "N" else "S",
                            if 0 < lo then "E" else "W"⟩, exiftoolParams ov)⟩
                | .ok _ =>
                    ⟨.done, true,
                     some (⟨row.lat, row.lon, row.alt,
                            if 0 < la then "N" else "S",
                            if 0 < lo then "E" else "W"⟩, exiftoolParams ov)⟩
            | _, _ => ⟨.raised "ValueError: could not convert string to float", true, none⟩

/-- Counters for one worker's run: tasks pulled from the queue, calls to
`PHOTO_QUEUE.task_done()`, and the exception that escaped the worker loop,
if any. -/
structure WorkerRun where
  pulled : Nat
  doneCalls : Nat
  crash : Option String
deriving DecidableEq

/-- Whether a `write_photo_gps` call ended by raising. -/
def raisedErr : WriteOutcome → Option String
  | .raised e => some e
  | _ => none

/-- Embeds `write_worker` (lines 139-148) over the sequence of
`write_photo_gps` results of the tasks this worker would pull, in queue
order.  Per the source, `task_done` sits in a `finally`, so it runs once
per pulled task even when `write_photo_gps` raises; the surrounding
`try/except` catches only `queue.Empty`, so any other exception escapes
the loop after the `finally` (modelled by `crash`), and an empty queue
ends the loop normally. -/
def write_worker : List WriteResult → WorkerRun
  | [] => ⟨0, 0, none⟩
  | r :: rest =>
    match raisedErr r.outcome with
    | some e => ⟨1, 1, some e⟩
    | none =>
        let w := write_worker rest
        ⟨w.pulled + 1, w.doneCalls + 1, w.crash⟩

/-- Embeds one iteration of `read_worker`'s queue body (lines 156-158):
append the EXIF row to the shared `GPS_TABLE` list when the row is present
and `exif_row[0]`, `exif_row[1]`, `exif_row[2]` are all truthy (a float is
truthy iff nonzero, a string iff non-empty).  `exif` is the value returned
by `read_photo_gps` for the pulled photo. -/
def read_worker_step (table : List GpsRow) (exif : Option GpsRow) : List GpsRow :=
  match exif with
  | none => table
  | some e =>
      if e.ts ≠ 0 ∧ e.lat ≠ "" ∧ e.lon ≠ "" then table ++ [e] else table

/-- Harvest run: `read_worker` iterations folded over the per-photo EXIF
results, starting from the initial (empty) `GPS_TABLE`. -/
def read_worker_run (exifs : List (Option GpsRow)) : List GpsRow :=
  exifs.foldl read_worker_step []

/-- Embeds one iteration of `load_gps_csv`'s row loop (lines 31-38):
`(float(row[0]), row[1], row[2], row[3])`, where a missing column
(IndexError) or an unparsable first column (ValueError) is caught and the
row skipped; extra columns are ignored. -/
def parse_csv_row (row : List String) : Option GpsRow :=
  match row with
  | a :: b :: c :: d :: _ => (pyFloat a).map (fun t => ⟨t, b, c, d⟩)
  | _ => none

/-- Embeds `load_gps_csv` (lines 26-39): parse each CSV row, skipping the
failures, then `GPS_TABLE = set(GPS_TABLE)`.  The Python set is modelled
by `List.dedup` (one representative per duplicate group; the iteration
order of a Python set is unspecified, and no claim depends on it). -/
def load_gps_csv (rows : List (List String)) : List GpsRow :=
  (rows.filterMap parse_csv_row).dedup

/-- Embeds `write_gps_csv` (lines 41-53): `GPS_TABLE = set(GPS_TABLE)`,
then every member of the set is written as one CSV row (appended to the
file; `writer.writerow` does not raise on these tuples).  The result is
the list of rows appended. -/
def write_gps_csv (table : List GpsRow) : List GpsRow :=
  table.dedup

/-- Initial value of the module-level `OVERWRITE` global (line 21). -/
def OVERWRITE_init : Bool := false

/-- Value of the module-level `OVERWRITE` global as seen by the workers
after `main` has run line 176.  The statement `OVERWRITE = overwrite`
inside `main` has no `global OVERWRITE` declaration, so it binds a
function-local name and the module global keeps its initial value
whatever the CLI flag was. -/
def overwrite_after_main (_cliOverwrite : Bool) : Bool :=
  OVERWRITE_init

/-- Fold invariant of the `get_closest_gps_row` scan: the accumulator only
ever decreases, the final pair is either the initial one or the distance
and row of some scanned element, and the final minimum is below the
distance of every scanned element. -/
theorem closest_foldl_spec (T : ℚ) (l : List GpsRow) (acc : WithTop ℚ × Option GpsRow) :
    (l.foldl (closestStep T) acc = acc ∨
      ∃ r ∈ l, l.foldl (closestStep T) acc = (((|T - r.ts| : ℚ) : WithTop ℚ), some r)) ∧
    (l.foldl (closestStep T) acc).1 ≤ acc.1 ∧
    ∀ r ∈ l, (l.foldl (closestStep T) acc).1 ≤ ((|T - r.ts| : ℚ) : WithTop ℚ) := by
  induction l generalizing acc with
  | nil => exact ⟨Or.inl rfl, le_refl _, fun r hr => absurd hr (List.not_mem_nil r)⟩
  | cons a t ih =>
    have hfold : (a :: t).foldl (closestStep T) acc = t.foldl (closestStep T) (closestStep T acc a) :=
      List.foldl_cons _ _
    have hstep₁ : (closestStep T acc a).1 ≤ acc.1 := by
      by_cases h : ((|T - a.ts| : ℚ) : WithTop ℚ) < acc.1
      · simp only [closestStep, if_pos h]
        exact le_of_lt h
      · simp only [closestStep, if_neg h]
        exact le_refl _
    have hstep₂ : (closestStep T acc a).1 ≤ ((|T - a.ts| : ℚ) : WithTop ℚ) := by
      by_cases h : ((|T - a.ts| : ℚ) : WithTop ℚ) < acc.1
      · simp only [closestStep, if_pos h]
        exact le_refl _
      · simp only [closestStep, if_neg h]
        exact le_of_not_lt h
    have hstep₃ : closestStep T acc a = acc ∨
        closestStep T acc a = (((|T - a.ts| : ℚ) : WithTop ℚ), some a) := by
      by_cases h : ((|T - a.ts| : ℚ) : WithTop ℚ) < acc.1
      · exact Or.inr (by simp only [closestStep, if_pos h])
      · exact Or.inl (by simp only [closestStep, if_neg h])
    obtain ⟨ih₁, ih₂, ih₃⟩ := ih (closestStep T acc a)
    refine ⟨?_, ?_, ?_⟩
    · rcases ih₁ with heq | ⟨r, hr, hres⟩
      · rcases hstep₃ with hs | hs
        · exact Or.inl (by rw [hfold, heq, hs])
        · exact Or.inr ⟨a, List.mem_cons_self a t, by rw [hfold, heq, hs]⟩
      · exact Or.inr ⟨r, List.mem_cons_of_mem a hr, by rw [hfold, hres]⟩
    · rw [hfold]
      exact le_trans ih₂ hstep₁
    · intro r hr
      rcases List.mem_cons.mp hr with rfl | hrt
      · rw [hfold]
        exact le_trans ih₂ hstep₂
      · rw [hfold]
        exact ih₃ r hrt

/-- Claim C2: for every timestamp `T`, `get_closest_gps_row` on the empty
table returns `(+infinity, empty)`, and on a non-empty table returns a
pair `(minDiff, sample)` where `sample` is a table entry minimising
`|T - sample.timestamp|` and `minDiff` is that minimum.  The lookup is a
pure function of the table (it only folds over it), so the table is left
unchanged. -/
theorem get_closest_gps_row_nearest (T : ℚ) (table : List GpsRow) (h : table ≠ []) :
    get_closest_gps_row T [] = (⊤, none) ∧
    ∃ r ∈ table,
      get_closest_gps_row T table = (((|T - r.ts| : ℚ) : WithTop ℚ), some r) ∧
      ∀ r2 ∈ table, |T - r.ts| ≤ |T - r2.ts| := by
  refine ⟨rfl, ?_⟩
  obtain ⟨h₁, _, h₃⟩ := closest_foldl_spec T table (⊤, none)
  rcases h₁ with heq | ⟨r, hr, hres⟩
  · obtain ⟨a, t, rfl⟩ := List.exists_cons_of_ne_nil h
    have hle := h₃ a (List.mem_cons_self a t)
    rw [heq] at hle
    exact absurd (top_le_iff.mp hle) (WithTop.coe_ne_top)
  · refine ⟨r, hr, hres, fun r2 hr2 => ?_⟩
    have hle := h₃ r2 hr2
    rw [hres] at hle
    exact WithTop.coe_le_coe.mp hle

/-- Concrete instantiation of claim C2's theorem: a two-row table at
timestamp 100, where the second row (distance 5) beats the first
(distance 10). -/
theorem get_closest_gps_row_nearest_witness :
    ∃ r ∈ [GpsRow.mk 90 "a" "b" "c", GpsRow.mk 105 "d" "e" "f"],
      get_closest_gps_row 100 [GpsRow.mk 90 "a" "b" "c", GpsRow.mk 105 "d" "e" "f"]
        = (((|(100 : ℚ) - r.ts| : ℚ) : WithTop ℚ), some r) ∧
      ∀ r2 ∈ [GpsRow.mk 90 "a" "b" "c", GpsRow.mk 105 "d" "e" "f"],
        |(100 : ℚ) - r.ts| ≤ |(100 : ℚ) - r2.ts| :=
  (get_closest_gps_row_nearest 100
    [GpsRow.mk 90 "a" "b" "c", GpsRow.mk 105 "d" "e" "f"]
    (List.cons_ne_nil _ _)).2

/-- Evaluation of `pyFloat` on the literal "0.0". -/
theorem pyFloat_zero : pyFloat "0.0" = some 0 := by
  simp +decide [pyFloat, stripSign, splitDot, decDigits?, digVal]

/-- Evaluation of `pyFloat` on the literal "35.0". -/
theorem pyFloat_thirtyfive : pyFloat "35.0" = some 35 := by
  simp +decide [pyFloat, stripSign, splitDot, decDigits?, digVal]

/-- Evaluation of `pyFloat` on the literal "139.0". -/
theorem pyFloat_onethreenine : pyFloat "139.0" = some 139 := by
  simp +decide [pyFloat, stripSign, splitDot, decDigits?, digVal]

/-- Nearest-row lookup for a photo at timestamp 200 against the one-row
table at timestamp 100: distance 100. -/
theorem closest_near_eval :
    get_closest_gps_row 200 [⟨100, "0.0", "0.0", "10"⟩]
      = (((100 : ℚ) : WithTop ℚ), some ⟨100, "0.0", "0.0", "10"⟩) := by
  have habs : |(200 : ℚ) - 100| = 100 := by norm_num
  simp only [get_closest_gps_row, List.foldl, closestStep]
  rw [if_pos (WithTop.coe_lt_top _), habs]

/-- Nearest-row lookup for a photo at timestamp 200 against the one-row
table at timestamp 4000: distance 3800, beyond the one-hour window. -/
theorem closest_far_eval :
    get_closest_gps_row 200 [⟨4000, "35.0", "139.0", "10"⟩]
      = (((3800 : ℚ) : WithTop ℚ), some ⟨4000, "35.0", "139.0", "10"⟩) := by
  have habs : |(200 : ℚ) - 4000| = 3800 := by norm_num
  simp only [get_closest_gps_row, List.foldl, closestStep]
  rw [if_pos (WithTop.coe_lt_top _), habs]

/-- Accepted-match run: photo at 200 with no GPS, one table row at 100
(diff 100 ≤ 3600), geocoder and exiftool calls succeed, `OVERWRITE`
false: the tags are written with refs "S"/"W" (both coordinates are 0.0)
and parameters `["-P", ""]`. -/
theorem write_accept_eval :
    write_photo_gps (some ⟨200, "", "", ""⟩) [⟨100, "0.0", "0.0", "10"⟩]
      (.ok "addr") (fun _ _ => .ok ()) false
    = ⟨.done, true, some (⟨"0.0", "0.0", "10", "S", "W"⟩, ["-P", ""])⟩ := by
  simp only [write_photo_gps, closest_near_eval, pyFloat_zero]
  rfl

/-- Rejected-match run: photo at 200, one table row at 4000
(diff 3800 > 3600), geocoder call succeeds: rejected, no tag call, and
the geocoder was invoked. -/
theorem write_reject_eval :
    write_photo_gps (some ⟨200, "", "", ""⟩) [⟨4000, "35.0", "139.0", "10"⟩]
      (.ok "addr") (fun _ _ => .ok ()) false
    = ⟨.rejectedTooFar, true, none⟩ := by
  simp only [write_photo_gps, closest_far_eval]
  rfl

/-- Raising run: same photo and table, but the reverse-geocoding call
raises: the exception escapes `write_photo_gps`. -/
theorem write_raise_eval :
    write_photo_gps (some ⟨200, "", "", ""⟩) [⟨4000, "35.0", "139.0", "10"⟩]
      (.error "boom") (fun _ _ => .ok ()) false
    = ⟨.raised "boom", true, none⟩ := by
  simp only [write_photo_gps, closest_far_eval]
  rfl

/-- Claim C1: the claim says the EXIF write honors the CLI
overwrite-original flag; in the code `main` (line 176) assigns the flag to
a function-local name without a `global OVERWRITE` declaration, so the
module global read by `write_photo_gps` at line 133 stays `False` and the
exiftool invocation omits `-overwrite_original` (backup preserved) even
when `--overwrite` was passed.  This theorem exhibits the bug: with the
CLI flag passed, an accepted match is still written with parameters
`["-P", ""]`. -/
theorem overwrite_flag_ignored_after_main :
    overwrite_after_main true = false ∧
    (write_photo_gps (some ⟨200, "", "", ""⟩) [⟨100, "0.0", "0.0", "10"⟩]
      (.ok "addr") (fun _ _ => .ok ()) (overwrite_after_main true)).tagsCall
      = some (⟨"0.0", "0.0", "10", "S", "W"⟩, ["-P", ""]) := by
  refine ⟨rfl, ?_⟩
  rw [show overwrite_after_main true = false from rfl, write_accept_eval]

/-- Claim C4: a photo whose EXIF record already contains non-empty
latitude and non-empty longitude is never written: `write_photo_gps`
returns at line 102 before consulting the table, the geocoder, or
exiftool, for every table and every collaborator behaviour. -/
theorem existing_gps_never_overwritten (e : GpsRow) (table : List GpsRow)
    (addr : Except String String)
    (setTags : TagSet → List String → Except String Unit) (ov : Bool)
    (hlat : e.lat ≠ "") (hlon : e.lon ≠ "") :
    write_photo_gps (some e) table addr setTags ov = ⟨.skippedHasGps, false, none⟩ := by
  simp only [write_photo_gps, if_pos (And.intro hlat hlon)]

/-- Concrete instantiation of claim C4's theorem: a photo already carrying
GPS 35.0/139.0 is skipped against a non-empty table. -/
theorem existing_gps_never_overwritten_witness :
    write_photo_gps (some ⟨200, "35.0", "139.0", "10"⟩) [⟨100, "0.0", "0.0", "10"⟩]
      (.ok "addr") (fun _ _ => .ok ()) false = ⟨.skippedHasGps, false, none⟩ :=
  existing_gps_never_overwritten ⟨200, "35.0", "139.0", "10"⟩
    [⟨100, "0.0", "0.0", "10"⟩] (.ok "addr") (fun _ _ => .ok ()) false
    (by decide) (by decide)

/-- Claim C10: in harvest mode a photo whose capture timestamp converts to
exactly 0.0 (the Unix epoch) is never appended to the GPS table, even with
latitude and longitude present, because line 157 tests `exif_row[0]` for
truthiness and the float 0.0 is falsy. -/
theorem epoch_timestamp_never_harvested (lat lon alt : String) (t : List GpsRow)
    (hlat : lat ≠ "") (hlon : lon ≠ "") :
    read_worker_step t (some ⟨0, lat, lon, alt⟩) = t := by
  simp [read_worker_step]

/-- Concrete instantiation of claim C10's theorem: a complete EXIF record
with timestamp 0 and coordinates 35.0/139.0 leaves the table empty. -/
theorem epoch_timestamp_never_harvested_witness :
    read_worker_step [] (some ⟨0, "35.0", "139.0", "10"⟩) = [] :=
  epoch_timestamp_never_harvested "35.0" "139.0" "10" [] (by decide) (by decide)

/-- Claim C5 counterexample: the claim says any error raised while
processing a file is caught and converted to a logged no-op, never
propagated to crash a worker.  In the code `write_worker` catches only
`queue.Empty`, so an exception raised past the EXIF read — here the
reverse-geocoding call raising "boom" — escapes the worker loop: the
worker run ends with `crash = some "boom"` (though `task_done` was still
called once, from the `finally`). -/
theorem worker_uncaught_error_counterexample :
    (write_worker [write_photo_gps (some ⟨200, "", "", ""⟩)
        [⟨4000, "35.0", "139.0", "10"⟩] (.error "boom") (fun _ _ => .ok ()) false]).crash
      = some "boom" ∧
    (write_worker [write_photo_gps (some ⟨200, "", "", ""⟩)
        [⟨4000, "35.0", "139.0", "10"⟩] (.error "boom") (fun _ _ => .ok ()) false]).doneCalls
      = 1 := by
  rw [write_raise_eval]
  exact ⟨rfl, rfl⟩

/-- Claim C5 (amended): every task pulled by `write_worker` is marked done
exactly once (the `task_done` call count equals the pull count, thanks to
the `finally`), and the worker terminates without an escaping exception if
and only if no pulled task's `write_photo_gps` raised — an error raised
past the internally-caught EXIF read propagates out of the worker loop
and terminates that worker thread. -/
theorem worker_done_once_crash_iff (rs : List WriteResult) :
    (write_worker rs).doneCalls = (write_worker rs).pulled ∧
    ((write_worker rs).crash = none ↔ ∀ r ∈ rs, raisedErr r.outcome = none) := by
  induction rs with
  | nil => exact ⟨rfl, by simp [write_worker]⟩
  | cons r rest ih =>
    obtain ⟨ih1, ih2⟩ := ih
    cases hr : raisedErr r.outcome with
    | some e =>
      refine ⟨by simp [write_worker, hr], ?_⟩
      simp only [write_worker, hr]
      constructor
      · intro h
        exact absurd h (by simp)
      · intro hall
        exact hr ▸ hall r (List.mem_cons_self r rest)
    | none =>
      refine ⟨by simp [write_worker, hr, ih1], ?_⟩
      simp only [write_worker, hr]
      constructor
      · intro h r2 hr2
        rcases List.mem_cons.mp hr2 with rfl | hrt
        · exact hr
        · exact (ih2.mp h) r2 hrt
      · intro hall
        exact ih2.mpr (fun x hx => hall x (List.mem_cons_of_mem r hx))

/-- Claim C6 counterexample: the claim says no address-resolution call is
ever made for a rejected match.  In the code `gps_to_address` is called at
line 111, before the threshold check at line 114: a photo at timestamp 200
against a single sample at 4000 (diff 3800 > 3600) is rejected, yet the
geocoder was invoked. -/
theorem address_called_on_rejected_counterexample :
    (write_photo_gps (some ⟨200, "", "", ""⟩) [⟨4000, "35.0", "139.0", "10"⟩]
       (.ok "addr") (fun _ _ => .ok ()) false).outcome = .rejectedTooFar ∧
    (write_photo_gps (some ⟨200, "", "", ""⟩) [⟨4000, "35.0", "139.0", "10"⟩]
       (.ok "addr") (fun _ _ => .ok ()) false).addressCalled = true := by
  rw [write_reject_eval]
  exact ⟨rfl, rfl⟩

/-- Claim C6 (amended): address resolution precedes the acceptance check:
for every photo that reaches a non-empty nearest row, the geocoding
collaborator is invoked even when the match is then rejected; a rejected
match still performs no tag write. -/
theorem address_resolution_precedes_acceptance (e : GpsRow) (table : List GpsRow)
    (row : GpsRow) (a : String)
    (setTags : TagSet → List String → Except String Unit) (ov : Bool)
    (hGps : ¬(e.lat ≠ "" ∧ e.lon ≠ ""))
    (hrow : (get_closest_gps_row e.ts table).2 = some row)
    (hfar : ((3600 : ℚ) : WithTop ℚ) < (get_closest_gps_row e.ts table).1) :
    write_photo_gps (some e) table (.ok a) setTags ov = ⟨.rejectedTooFar, true, none⟩ := by
  simp only [write_photo_gps, if_neg hGps, hrow, if_pos hfar]

/-- Concrete instantiation of claim C6's amended theorem: the rejected
match at distance 3800 returns rejection with the geocoder invoked and no
tag call. -/
theorem address_resolution_precedes_acceptance_witness :
    write_photo_gps (some ⟨200, "", "", ""⟩) [⟨4000, "35.0", "139.0", "10"⟩]
      (.ok "addr") (fun _ _ => .ok ()) false = ⟨.rejectedTooFar, true, none⟩ :=
  address_resolution_precedes_acceptance ⟨200, "", "", ""⟩
    [⟨4000, "35.0", "139.0", "10"⟩] ⟨4000, "35.0", "139.0", "10"⟩ "addr"
    (fun _ _ => .ok ()) false
    (by decide)
    (congrArg Prod.snd closest_far_eval)
    (by
      rw [show (get_closest_gps_row (GpsRow.mk 200 "" "" "").ts
            [GpsRow.mk 4000 "35.0" "139.0" "10"]).1 = ((3800 : ℚ) : WithTop ℚ)
          from congrArg Prod.fst closest_far_eval]
      exact WithTop.coe_lt_coe.mpr (by norm_num))

/-- Claim C3: for a photo with a readable timestamp, no existing GPS, and
a nearest sample (with parseable coordinates, succeeding geocoder): when
the minimum time difference exceeds 3600 seconds the match is rejected and
no tags are written; when it is 3600 or less, the `set_tags` call is made
with the sample's GPS fields. -/
theorem threshold_accept_reject_policy (e : GpsRow) (table : List GpsRow)
    (row : GpsRow) (a : String)
    (setTags : TagSet → List String → Except String Unit) (ov : Bool)
    (la lo : ℚ)
    (hGps : ¬(e.lat ≠ "" ∧ e.lon ≠ ""))
    (hrow : (get_closest_gps_row e.ts table).2 = some row)
    (hla : pyFloat row.lat = some la) (hlo : pyFloat row.lon = some lo) :
    (((3600 : ℚ) : WithTop ℚ) < (get_closest_gps_row e.ts table).1 →
      (write_photo_gps (some e) table (.ok a) setTags ov).outcome = .rejectedTooFar ∧
      (write_photo_gps (some e) table (.ok a) setTags ov).tagsCall = none) ∧
    ((get_closest_gps_row e.ts table).1 ≤ ((3600 : ℚ) : WithTop ℚ) →
      (write_photo_gps (some e) table (.ok a) setTags ov).tagsCall
        = some (⟨row.lat, row.lon, row.alt,
                 if 0 < la then "N" else "S",
                 if 0 < lo then "E" else "W"⟩, exiftoolParams ov)) := by
  constructor
  · intro hfar
    simp only [write_photo_gps, if_neg hGps, hrow, if_pos hfar]
    trivial
  · intro hnear
    simp only [write_photo_gps, if_neg hGps, hrow, if_neg (not_lt.mpr hnear), hla, hlo]
    cases hst : setTags ⟨row.lat, row.lon, row.alt,
        if 0 < la then "N" else "S", if 0 < lo then "E" else "W"⟩ (exiftoolParams ov) with
    | error er => rfl
    | ok u => rfl

/-- Concrete instantiation of claim C3's theorem: photo at 200 with no
GPS, one sample at 100 (diff 100): the far branch is vacuous, the near
branch shows the tag call with refs "S"/"W". -/
theorem threshold_accept_reject_policy_witness :
    (((3600 : ℚ) : WithTop ℚ)
        < (get_closest_gps_row (200 : ℚ) [⟨100, "0.0", "0.0", "10"⟩]).1 →
      (write_photo_gps (some ⟨200, "", "", ""⟩) [⟨100, "0.0", "0.0", "10"⟩]
        (.ok "addr") (fun _ _ => .ok ()) false).outcome = .rejectedTooFar ∧
      (write_photo_gps (some ⟨200, "", "", ""⟩) [⟨100, "0.0", "0.0", "10"⟩]
        (.ok "addr") (fun _ _ => .ok ()) false).tagsCall = none) ∧
    ((get_closest_gps_row (200 : ℚ) [⟨100, "0.0", "0.0", "10"⟩]).1
        ≤ ((3600 : ℚ) : WithTop ℚ) →
      (write_photo_gps (some ⟨200, "", "", ""⟩) [⟨100, "0.0", "0.0", "10"⟩]
        (.ok "addr") (fun _ _ => .ok ()) false).tagsCall
        = some (⟨"0.0", "0.0", "10", "S", "W"⟩, exiftoolParams false)) :=
  threshold_accept_reject_policy ⟨200, "", "", ""⟩ [⟨100, "0.0", "0.0", "10"⟩]
    ⟨100, "0.0", "0.0", "10"⟩ "addr" (fun _ _ => .ok ()) false 0 0
    (by decide) (congrArg Prod.snd closest_near_eval) pyFloat_zero pyFloat_zero

/-- Claim C7: in harvest mode a complete sample is appended once per
processing; the in-memory list after two identical appends holds the
sample twice, but the table as persisted by `write_gps_csv` (which applies
`set(...)` first) holds exactly one entry in both cases, and every
persisted table is duplicate-free. -/
theorem harvest_persist_set_semantics (e : GpsRow)
    (h1 : e.ts ≠ 0) (h2 : e.lat ≠ "") (h3 : e.lon ≠ "") :
    read_worker_run [some e] = [e] ∧
    read_worker_run [some e, some e] = [e, e] ∧
    write_gps_csv (read_worker_run [some e]) = [e] ∧
    write_gps_csv (read_worker_run [some e, some e]) = [e] ∧
    ∀ t : List GpsRow, (write_gps_csv t).Nodup := by
  have hstep : read_worker_step [] (some e) = [e] := by
    simp [read_worker_step, h1, h2, h3]
  have hstep2 : read_worker_step [e] (some e) = [e, e] := by
    simp [read_worker_step, h1, h2, h3]
  have hrun1 : read_worker_run [some e] = [e] := by
    simp [read_worker_run, hstep]
  have hrun2 : read_worker_run [some e, some e] = [e, e] := by
    simp [read_worker_run, hstep, hstep2]
  refine ⟨hrun1, hrun2, ?_, ?_, fun t => List.nodup_dedup t⟩
  · rw [hrun1]
    simp [write_gps_csv]
  · rw [hrun2]
    simp [write_gps_csv, List.dedup_cons_of_mem]

/-- Concrete instantiation of claim C7's theorem at the spec's example
sample `(1700000000, "35.0", "139.0", "10")`. -/
theorem harvest_persist_set_semantics_witness :
    read_worker_run [some ⟨1700000000, "35.0", "139.0", "10"⟩]
      = [⟨1700000000, "35.0", "139.0", "10"⟩] ∧
    read_worker_run [some ⟨1700000000, "35.0", "139.0", "10"⟩,
                     some ⟨1700000000, "35.0", "139.0", "10"⟩]
      = [⟨1700000000, "35.0", "139.0", "10"⟩, ⟨1700000000, "35.0", "139.0", "10"⟩] ∧
    write_gps_csv (read_worker_run [some ⟨1700000000, "35.0", "139.0", "10"⟩])
      = [⟨1700000000, "35.0", "139.0", "10"⟩] ∧
    write_gps_csv (read_worker_run [some ⟨1700000000, "35.0", "139.0", "10"⟩,
                                    some ⟨1700000000, "35.0", "139.0", "10"⟩])
      = [⟨1700000000, "35.0", "139.0", "10"⟩] ∧
    ∀ t : List GpsRow, (write_gps_csv t).Nodup :=
  harvest_persist_set_semantics ⟨1700000000, "35.0", "139.0", "10"⟩
    (by decide) (by decide) (by decide)

/-- Claim C8: loading a persisted table and immediately persisting it is
idempotent on the set of samples: the persisted output is exactly the
loaded set, each parsed input row appears exactly once in the output (all
duplicate groups collapse), and the output is duplicate-free.  (The row
order of the output is the unspecified set-iteration order; no order
stability is claimed.) -/
theorem load_persist_idempotent_on_set (rows : List (List String)) (r : GpsRow) :
    write_gps_csv (load_gps_csv rows) = load_gps_csv rows ∧
    (write_gps_csv (load_gps_csv rows)).count r
      = (if r ∈ rows.filterMap parse_csv_row then 1 else 0) ∧
    (write_gps_csv (load_gps_csv rows)).Nodup := by
  refine ⟨List.dedup_idem, ?_, List.nodup_dedup _⟩
  calc (write_gps_csv (load_gps_csv rows)).count r
      = ((rows.filterMap parse_csv_row).dedup.dedup).count r := rfl
    _ = ((rows.filterMap parse_csv_row).dedup).count r := by rw [List.dedup_idem]
    _ = (if r ∈ rows.filterMap parse_csv_row then 1 else 0) :=
        List.count_dedup _ r

/-- Claim C9: whenever `write_photo_gps` makes a tag call (an accepted
match), the hemisphere references in the written tag set are derived by
strict comparison with zero from the written coordinates: "N" iff
latitude > 0 (so 0.0 yields "S"), "E" iff longitude > 0 (so 0.0 yields
"W"). -/
theorem hemisphere_refs_strict_zero (exif : Option GpsRow) (table : List GpsRow)
    (addr : Except String String)
    (setTags : TagSet → List String → Except String Unit) (ov : Bool)
    (tags : TagSet) (params : List String)
    (h : (write_photo_gps exif table addr setTags ov).tagsCall = some (tags, params)) :
    ∃ la lo : ℚ, pyFloat tags.lat = some la ∧ pyFloat tags.lon = some lo ∧
      tags.latRef = (if 0 < la then "N" else "S") ∧
      tags.lonRef = (if 0 < lo then "E" else "W") := by
  unfold write_photo_gps at h
  split at h
  · simp at h
  · split at h
    · simp at h
    · split at h
      · simp at h
      · rename_i row hrow
        split at h
        · simp at h
        · split at h
          · simp at h
          · split at h
            · rename_i la lo hla hlo
              cases hst : setTags ⟨row.lat, row.lon, row.alt,
                  if 0 < la then "N" else "S", if 0 < lo then "E" else "W"⟩
                  (exiftoolParams ov) with
              | error er =>
                rw [hst] at h
                simp only [Option.some.injEq, Prod.mk.injEq] at h
                obtain ⟨htags, _⟩ := h
                subst htags
                exact ⟨la, lo, hla, hlo, rfl, rfl⟩
              | ok u =>
                rw [hst] at h
                simp only [Option.some.injEq, Prod.mk.injEq] at h
                obtain ⟨htags, _⟩ := h
                subst htags
                exact ⟨la, lo, hla, hlo, rfl, rfl⟩
            · simp at h

/-- Concrete instantiation of claim C9's theorem at the boundary values:
the accepted match writes coordinates 0.0/0.0, and the references come
out "S" and "W" (strict comparison with zero). -/
theorem hemisphere_refs_strict_zero_witness :
    ∃ la lo : ℚ, pyFloat "0.0" = some la ∧ pyFloat "0.0" = some lo ∧
      "S" = (if 0 < la then "N" else "S") ∧
      "W" = (if 0 < lo then "E" else "W") :=
  hemisphere_refs_strict_zero (some ⟨200, "", "", ""⟩) [⟨100, "0.0", "0.0", "10"⟩]
    (.ok "addr") (fun _ _ => .ok ()) false ⟨"0.0", "0.0", "10", "S", "W"⟩ ["-P", ""]
    (by rw [write_accept_eval])
